import Mathlib

/-!
Shallow embedding of the doccano download/export core
(`backend/api/views/download/repositories.py` and `data.py`).

The data model mirrors exactly the fields the export code reads:
documents (`Example`) with their per-type annotation collections,
the global span and relation tables, and the project configuration.
Python dicts preserve insertion order, so the per-user maps built by
`defaultdict(list)` are embedded as association lists from usernames to
label buckets; `addToBucket` appends into the existing bucket of a key
(keeping its position) or appends a fresh bucket at the end, exactly as
`defaultdict(list)[k].append(v)` does.  Fallible Django ORM lookups
(`Span.objects.get`) and Python attribute lookup become `Except PyError`;
a generator that raises after yielding some records is embedded as the
pair of the records produced before the error and the optional error.
-/

/-- Errors the export code can raise: `AttributeError` when
`TextRepository.list` calls `self.annotation_relations_per_user()` on a
subclass that does not define it, and `Span.DoesNotExist` when
`Span.objects.get(id=...)` finds no row. -/
inductive PyError where
  | attributeError
  | doesNotExist
deriving DecidableEq

/-- `Project` with the single configuration field the export reads. -/
structure Project where
  id : Nat
  collaborative_annotation : Bool
deriving DecidableEq

/-- A category annotation as the export reads it: `a.user.username` and
`a.label.text` (the label foreign key flattened to its text). -/
structure Category where
  username : String
  labelText : String
deriving DecidableEq

/-- A free-text annotation (`a.user.username`, `a.text`), used by the
seq2seq and speech-to-text repositories. -/
structure TextAnn where
  username : String
  text : String
deriving DecidableEq

/-- A span annotation: row id (for `Span.objects.get`), offsets,
`a.label.text` and `a.user.username`. -/
structure Span where
  id : Nat
  start_offset : Nat
  end_offset : Nat
  labelText : String
  username : String
deriving DecidableEq

/-- A stored annotation relation: two span row ids, the relation type
name (`a.type.name`) and the owning annotator (`a.user.username`). -/
structure AnnotationRelations where
  annotation_id_1 : Nat
  annotation_id_2 : Nat
  typeName : String
  username : String
deriving DecidableEq

/-- A document/example with the fields and related annotation
collections the export reads.  `annotations_approved_by` is the nullable
approving-reviewer foreign key. -/
structure Example where
  id : Nat
  text : String
  filename : String
  meta : List (String × String)
  annotations_approved_by : Option String
  categories : List Category
  spans : List Span
  texts : List TextAnn
deriving DecidableEq

/-- The data source an export pass reads: the project being exported and
its examples, plus the global span and relation tables
(`Span.objects` and `AnnotationRelations.objects`, which Django scans
across all projects). -/
structure Database where
  project : Project
  examples : List Example
  allSpans : List Span
  allRelations : List AnnotationRelations
deriving DecidableEq

/-- The 5-tuple the sequence-labeling export builds for one relation. -/
abbrev RelTuple := Nat × String × Nat × String × String

/-- Per-user map: insertion-ordered association list from username to
that user's bucket of values (the embedding of `defaultdict(list)`). -/
abbrev UserMap (α : Type) := List (String × List α)

/-- The exported `Record` (from `data.py`): fields in constructor order
`id, data, label, user, metadata, annotation_relations`; the last
defaults to `[]` when the keyword is not passed. -/
structure Record (α : Type) where
  id : Nat
  data : String
  label : List α
  user : String
  metadata : List (String × String)
  annotation_relations : List RelTuple
deriving DecidableEq

/-- `defaultdict(list)[k].append(v)`: append into the first (unique)
bucket with key `k`, or add a new bucket `(k, [v])` at the end. -/
def addToBucket {α : Type} : UserMap α → String → α → UserMap α
  | [], k, v => [(k, [v])]
  | p :: m, k, v =>
    if p.1 = k then (p.1, p.2 ++ [v]) :: m else p :: addToBucket m k v

/-- Dict read with default `[]` (`defaultdict` lookup / the `'all'`
lookup on the reduced dict). -/
def lookupD {α : Type} : UserMap α → String → List α
  | [], _ => []
  | p :: m, k => if p.1 = k then p.2 else lookupD m k

/-- The shared shape of every `label_per_user` method: scan the
annotation collection in retrieval order, appending each annotation's
value to its annotator's bucket. -/
def groupAppend {α β : Type} (key : β → String) (val : β → α) (l : List β) : UserMap α :=
  l.foldl (fun m a => addToBucket m (key a) (val a)) []

/-- `reduce_user`: collapse a per-user map to the single pseudo-user
`"all"` whose bucket is `itertools.chain(*values)`, i.e. the
concatenation of every bucket in iteration order. -/
def reduce_user {α : Type} (m : UserMap α) : UserMap α :=
  [("all", (m.map Prod.snd).flatten)]

/-- `FileRepository.label_per_user`: group `example.categories` by
username, value `a.label.text`. -/
def FileRepository.label_per_user (ex : Example) : UserMap String :=
  groupAppend Category.username Category.labelText ex.categories

/-- `Speech2TextRepository.label_per_user`: group `example.texts`,
value `a.text`. -/
def Speech2TextRepository.label_per_user (ex : Example) : UserMap String :=
  groupAppend TextAnn.username TextAnn.text ex.texts

/-- `TextClassificationRepository.label_per_user`: group
`doc.categories`, value `a.label.text`. -/
def TextClassificationRepository.label_per_user (doc : Example) : UserMap String :=
  groupAppend Category.username Category.labelText doc.categories

/-- `SequenceLabelingRepository.label_per_user`: group `doc.spans`,
value `(a.start_offset, a.end_offset, a.label.text)`. -/
def SequenceLabelingRepository.label_per_user (doc : Example) : UserMap (Nat × Nat × String) :=
  groupAppend Span.username (fun a => (a.start_offset, a.end_offset, a.labelText)) doc.spans

/-- `Seq2seqRepository.label_per_user`: group `doc.texts`, value
`a.text`. -/
def Seq2seqRepository.label_per_user (doc : Example) : UserMap String :=
  groupAppend TextAnn.username TextAnn.text doc.texts

/-- `Span.objects.get(id=i)`: first row of the global span table with
that id, raising `DoesNotExist` when there is none. -/
def Span.objects_get (db : Database) (i : Nat) : Except PyError Span :=
  match db.allSpans.find? (fun s => s.id == i) with
  | some s => Except.ok s
  | none => Except.error PyError.doesNotExist

/-- The body of the relation loop for one relation `a`: resolve
`span_1` then `span_2` (first failure raises) and build
`(span_1.start_offset, span_1.label.text, span_2.start_offset,
span_2.label.text, a.type.name)`. -/
def relTuple (db : Database) (a : AnnotationRelations) : Except PyError RelTuple :=
  match Span.objects_get db a.annotation_id_1 with
  | Except.error e => Except.error e
  | Except.ok s1 =>
    match Span.objects_get db a.annotation_id_2 with
    | Except.error e => Except.error e
    | Except.ok s2 =>
      Except.ok (s1.start_offset, s1.labelText, s2.start_offset, s2.labelText, a.typeName)

/-- The `for a in AnnotationRelations.objects.all()` loop: fold the
relation rows in retrieval order, appending each resolved tuple to its
owner's bucket; a failed span lookup raises out of the loop. -/
def arpuLoop (db : Database) (m : UserMap RelTuple) : List AnnotationRelations → Except PyError (UserMap RelTuple)
  | [] => Except.ok m
  | a :: l =>
    match relTuple db a with
    | Except.error e => Except.error e
    | Except.ok t => arpuLoop db (addToBucket m a.username t) l

/-- `SequenceLabelingRepository.annotation_relations_per_user`: group
the WHOLE global relation table (`AnnotationRelations.objects.all()`,
no project filter) by owning annotator. -/
def SequenceLabelingRepository.annotation_relations_per_user (db : Database) : Except PyError (UserMap RelTuple) :=
  arpuLoop db [] db.allRelations

/-- The document set of one `list()` pass: all of the project's
examples, or (`export_approved=True`) only those with an approving
reviewer recorded (`exclude(annotations_approved_by=None)`). -/
def activeExamples (db : Database) (export_approved : Bool) : List Example :=
  if export_approved then db.examples.filter (fun d => d.annotations_approved_by.isSome)
  else db.examples

/-- One `yield Record(...)` of `TextRepository.list`'s per-user loop:
`data=doc.text`, `metadata=doc.meta`,
`annotation_relations=annotation_relations_per_user[user]`. -/
def textMkRecord {α : Type} (doc : Example) (arpu : UserMap RelTuple) (ul : String × List α) : Record α :=
  ⟨doc.id, doc.text, ul.2, ul.1, doc.meta, lookupD arpu ul.1⟩

/-- The `user='unknown'` fallback `Record` of `TextRepository.list`
(empty label, empty metadata, default `annotation_relations=[]`). -/
def textUnknownRecord {α : Type} (doc : Example) : Record α :=
  ⟨doc.id, doc.text, [], "unknown", [], []⟩

/-- The per-document body of `TextRepository.list`.  `relF` is the
result of looking up the `annotation_relations_per_user` method on the
concrete subclass: `none` (the method does not exist, so the attribute
access raises `AttributeError`) for the text-classification and seq2seq
subclasses, `some` of the method for sequence labeling.  On success it
returns the records yielded for this document: one per entry of the
(possibly collaboratively reduced) per-user map, then the `'unknown'`
fallback when that map is empty. -/
def textDocRecords {α : Type} (lpuF : Example → UserMap α)
    (relF : Option (Database → Except PyError (UserMap RelTuple)))
    (collab : Bool) (db : Database) (doc : Example) : Except PyError (List (Record α)) :=
  match relF with
  | none => Except.error PyError.attributeError
  | some f =>
    (f db).map (fun arpu0 =>
      let lpu := if collab then reduce_user (lpuF doc) else lpuF doc
      let arpu := if collab then reduce_user arpu0 else arpu0
      lpu.map (textMkRecord doc arpu) ++
        (if lpu.length = 0 then [textUnknownRecord doc] else []))

/-- Run the generator over the document list: concatenate each
document's records until a document raises; the second component is the
error (if any) that ends the stream. -/
def runDocs {α : Type} (f : Example → Except PyError (List (Record α))) : List Example → List (Record α) × Option PyError
  | [] => ([], none)
  | d :: ds =>
    match f d with
    | Except.error e => ([], some e)
    | Except.ok rs => (rs ++ (runDocs f ds).1, (runDocs f ds).2)

/-- `TextRepository.list(export_approved)`, parametrised by the
subclass's `label_per_user` strategy and its (possibly missing)
`annotation_relations_per_user` method. -/
def TextRepository.list {α : Type} (lpuF : Example → UserMap α)
    (relF : Option (Database → Except PyError (UserMap RelTuple)))
    (db : Database) (export_approved : Bool) : List (Record α) × Option PyError :=
  runDocs (textDocRecords lpuF relF ( Project.collaborative_annotation db.project) db)
    (activeExamples db export_approved)

/-- `TextClassificationRepository.list`: inherits `TextRepository.list`
with its own `label_per_user`; the subclass defines no
`annotation_relations_per_user`, so the method lookup fails. -/
def TextClassificationRepository.list (db : Database) (export_approved : Bool) : List (Record String) × Option PyError :=
  TextRepository.list TextClassificationRepository.label_per_user none db export_approved

/-- `SequenceLabelingRepository.list`: inherits `TextRepository.list`
and does define `annotation_relations_per_user`. -/
def SequenceLabelingRepository.list (db : Database) (export_approved : Bool) : List (Record (Nat × Nat × String)) × Option PyError :=
  TextRepository.list SequenceLabelingRepository.label_per_user
    (some SequenceLabelingRepository.annotation_relations_per_user) db export_approved

/-- `Seq2seqRepository.list`: inherits `TextRepository.list`; the
subclass defines no `annotation_relations_per_user`. -/
def Seq2seqRepository.list (db : Database) (export_approved : Bool) : List (Record String) × Option PyError :=
  TextRepository.list Seq2seqRepository.label_per_user none db export_approved

/-- `str(example.filename).split('/')[-1]`: the last `/`-separated
component, i.e. the characters after the last `/` (the whole string
when it has no `/`, the empty string for a trailing `/`). -/
def basename (s : String) : String :=
  String.mk (s.toList.foldl (fun acc c => if c = '/' then [] else acc ++ [c]) [])

/-- One `yield Record(...)` of `FileRepository.list`'s per-user loop:
`data` is the filename's basename and no `annotation_relations` keyword
is passed (default `[]`). -/
def fileMkRecord {α : Type} (ex : Example) (ul : String × List α) : Record α :=
  ⟨ex.id, basename ex.filename, ul.2, ul.1, ex.meta, []⟩

/-- The `user='unknown'` fallback `Record` of `FileRepository.list`. -/
def fileUnknownRecord {α : Type} (ex : Example) : Record α :=
  ⟨ex.id, basename ex.filename, [], "unknown", [], []⟩

/-- The per-document body of `FileRepository.list` (total: this class
never touches relations). -/
def fileDocRecords {α : Type} (lpuF : Example → UserMap α) (collab : Bool) (ex : Example) : List (Record α) :=
  let lpu := if collab then reduce_user (lpuF ex) else lpuF ex
  lpu.map (fileMkRecord ex) ++
    (if lpu.length = 0 then [fileUnknownRecord ex] else [])

/-- `FileRepository.list(export_approved)` (also `Speech2TextRepository`
via its own `label_per_user`): the whole stream, which never raises. -/
def FileRepository.list {α : Type} (lpuF : Example → UserMap α) (db : Database) (export_approved : Bool) : List (Record α) :=
  (activeExamples db export_approved).flatMap
    (fileDocRecords lpuF ( Project.collaborative_annotation db.project))

/-- `Except.isOk` as a plain boolean (decidable resolvability of a
span lookup or relation). -/
def isOkE {ε α : Type} : Except ε α → Bool
  | Except.ok _ => true
  | Except.error _ => false

/-- The pure step the relation loop takes when the lookup succeeds (used
to state what the loop computes in the success case). -/
def relStep (db : Database) (m : UserMap RelTuple) (a : AnnotationRelations) : UserMap RelTuple :=
  match (relTuple db a).toOption with
  | some t => addToBucket m a.username t
  | none => m

/-! ### Concrete data used by evaluations and witnesses -/

/-- The spec's example document: id 1, text `"Hello"`, categories
alice→greeting and bob→salutation. -/
def exHello : Example :=
  ⟨1, "Hello", "", [("k", "v")], none, [⟨"alice", "greeting"⟩, ⟨"bob", "salutation"⟩], [], []⟩

/-- Non-collaborative text-classification project holding `exHello`. -/
def dbX1 : Database := ⟨⟨1, false⟩, [exHello], [], []⟩

/-- Collaborative file-based project with one document that has zero
annotations (and non-empty metadata). -/
def dbX2 : Database :=
  ⟨⟨1, true⟩, [⟨1, "", "docs/a.txt", [("k", "v")], none, [], [], []⟩], [], []⟩

/-- Collaborative text-classification project with one annotated
document. -/
def dbX3 : Database :=
  ⟨⟨1, true⟩, [⟨1, "Hello", "", [], none, [⟨"alice", "greeting"⟩], [], []⟩], [], []⟩

/-- Sequence-labeling export of project 1 (collaborative, one document
with one span of alice), while the global tables also hold two spans
(ids 100 and 101) and one relation of another project, owned by eve. -/
def dbX4 : Database :=
  ⟨⟨1, true⟩,
   [⟨1, "text1", "", [], none, [], [⟨1, 0, 5, "PER", "alice"⟩], []⟩],
   [⟨1, 0, 5, "PER", "alice"⟩, ⟨100, 7, 9, "X", "eve"⟩, ⟨101, 20, 22, "Y", "eve"⟩],
   [⟨100, 101, "works_for", "eve"⟩]⟩

/-- Sequence-labeling project with a relation whose first span id (99)
resolves to no stored span. -/
def dbX5bad : Database :=
  ⟨⟨1, false⟩,
   [⟨1, "t", "", [], none, [], [⟨1, 0, 2, "PER", "alice"⟩], []⟩],
   [⟨1, 0, 2, "PER", "alice"⟩],
   [⟨99, 1, "broken", "alice"⟩]⟩

/-- Sequence-labeling project where every stored relation resolves. -/
def dbX5good : Database :=
  ⟨⟨1, false⟩,
   [⟨1, "t", "", [], none, [], [⟨1, 0, 2, "PER", "alice"⟩], []⟩],
   [⟨1, 0, 2, "PER", "alice"⟩],
   [⟨1, 1, "self", "alice"⟩]⟩

/-- Collaborative sequence-labeling project with one document that has
zero annotations. -/
def dbX6 : Database := ⟨⟨1, true⟩, [⟨1, "t", "", [], none, [], [], []⟩], [], []⟩

/-- Non-collaborative sequence-labeling project, one document with one
span of alice. -/
def dbW6 : Database :=
  ⟨⟨1, false⟩, [⟨1, "t", "", [], none, [], [⟨1, 0, 5, "PER", "alice"⟩], []⟩],
   [⟨1, 0, 5, "PER", "alice"⟩], []⟩

/-- The spec's relation scenario: spans at offsets 5 (`"PER"`) and 12
(`"ORG"`) linked by a `works_for` relation owned by alice. -/
def dbX7 : Database :=
  ⟨⟨1, false⟩,
   [⟨1, "t", "", [], none, [], [⟨1, 5, 8, "PER", "alice"⟩, ⟨2, 12, 15, "ORG", "alice"⟩], []⟩],
   [⟨1, 5, 8, "PER", "alice"⟩, ⟨2, 12, 15, "ORG", "alice"⟩],
   [⟨1, 2, "works_for", "alice"⟩]⟩

/-- Non-collaborative text-classification project, one annotated
document with no approving reviewer. -/
def exX8 : Example := ⟨1, "doc", "", [], none, [⟨"alice", "cat"⟩], [], []⟩

/-- Database for `exX8`. -/
def dbX8 : Database := ⟨⟨1, false⟩, [exX8], [], []⟩

/-- Non-collaborative file-based project, one unannotated document. -/
def exW8 : Example := ⟨1, "", "b.txt", [], none, [], [], []⟩

/-- Database for `exW8`. -/
def dbW8 : Database := ⟨⟨1, false⟩, [exW8], [], []⟩

/-- Non-collaborative sequence-labeling project with two documents, each
holding one span of alice, and one relation owned by alice. -/
def dbW10 : Database :=
  ⟨⟨1, false⟩,
   [⟨1, "d1", "", [], none, [], [⟨1, 0, 1, "A", "alice"⟩], []⟩,
    ⟨2, "d2", "", [], none, [], [⟨2, 2, 3, "B", "alice"⟩], []⟩],
   [⟨1, 0, 1, "A", "alice"⟩, ⟨2, 2, 3, "B", "alice"⟩],
   [⟨1, 2, "rel", "alice"⟩]⟩

/-- A document with zero annotations, for the fallback witness. -/
def docW2 : Example := ⟨7, "empty", "", [], none, [], [], []⟩

/-- Non-collaborative project around `docW2`, with empty global
tables. -/
def dbW2 : Database := ⟨⟨1, false⟩, [docW2], [], []⟩

/-- A file-based document annotated by alice and bob, for the
collaborative-reduction witness. -/
def exW3 : Example :=
  ⟨1, "", "a.txt", [], none, [⟨"alice", "greeting"⟩, ⟨"bob", "salutation"⟩], [], []⟩

/-- A sequence-labeling document with one span of alice, for the
collaborative-reduction witness. -/
def docW3 : Example := ⟨1, "txt", "", [], none, [], [⟨1, 0, 2, "PER", "alice"⟩], []⟩

/-- Collaborative sequence-labeling project around `docW3`, with no
stored relations. -/
def dbW3 : Database := ⟨⟨1, true⟩, [docW3], [⟨1, 0, 2, "PER", "alice"⟩], []⟩

/-! ### Helper lemmas -/

theorem lookupD_addToBucket {α : Type} (m : UserMap α) (k : String) (v : α) (u : String) :
    lookupD (addToBucket m k v) u =
      if u = k then lookupD m u ++ [v] else lookupD m u := by
  induction m with
  | nil =>
    by_cases h : u = k
    · subst h; simp [addToBucket, lookupD]
    · simp [addToBucket, lookupD, h, Ne.symm h]
  | cons p m ih =>
    by_cases hp : p.1 = k
    · by_cases h : u = k
      · subst h; simp [addToBucket, lookupD, hp]
      · have hku : ¬ k = u := fun hh => h hh.symm
        simp [addToBucket, lookupD, hp, hku, h]
    · by_cases hq : p.1 = u
      · have h : ¬ u = k := fun hh => hp (hq.trans hh)
        simp [addToBucket, lookupD, hp, hq, h]
      · simp [addToBucket, lookupD, hp, hq, ih]

theorem addToBucket_nonempty {α : Type} {m : UserMap α} {k : String} {v : α}
    (h : ∀ p ∈ m, p.2 ≠ []) : ∀ p ∈ addToBucket m k v, p.2 ≠ [] := by
  induction m with
  | nil =>
    intro p hp
    simp [addToBucket] at hp
    subst hp; simp
  | cons q m ih =>
    intro p hp
    by_cases hq : q.1 = k
    · simp only [addToBucket, if_pos hq, List.mem_cons] at hp
      rcases hp with hp | hp
      · subst hp; simp
      · exact h p (List.mem_cons_of_mem q hp)
    · simp only [addToBucket, if_neg hq, List.mem_cons] at hp
      rcases hp with hp | hp
      · rw [hp]; exact h q (List.mem_cons_self q m)
      · exact ih (fun r hr => h r (List.mem_cons_of_mem q hr)) p hp

theorem groupAppend_nonempty {α β : Type} (key : β → String) (val : β → α) (l : List β) :
    ∀ p ∈ groupAppend key val l, p.2 ≠ [] := by
  have main : ∀ (l : List β) (m : UserMap α), (∀ p ∈ m, p.2 ≠ []) →
      ∀ p ∈ l.foldl (fun m a => addToBucket m (key a) (val a)) m, p.2 ≠ [] := by
    intro l
    induction l with
    | nil => intro m hm; simpa using hm
    | cons a l ih =>
      intro m hm
      simp only [List.foldl_cons]
      exact ih _ (addToBucket_nonempty hm)
  exact main l [] (by simp)

theorem isOkE_iff {ε α : Type} (e : Except ε α) :
    isOkE e = true ↔ ∃ a, e = Except.ok a := by
  cases e with
  | error err => simp [isOkE]
  | ok a => simp [isOkE]

theorem Span.objects_get_cases (db : Database) (i : Nat) :
    (∃ s, Span.objects_get db i = Except.ok s) ∨
      Span.objects_get db i = Except.error PyError.doesNotExist := by
  rcases hfind : db.allSpans.find? (fun s => s.id == i) with _ | s
  · right; simp [Span.objects_get, hfind]
  · left; exact ⟨s, by simp [Span.objects_get, hfind]⟩

theorem relTuple_cases (db : Database) (a : AnnotationRelations) :
    (∃ t, relTuple db a = Except.ok t) ∨
      relTuple db a = Except.error PyError.doesNotExist := by
  rcases Span.objects_get_cases db a.annotation_id_1 with ⟨s1, h1⟩ | h1
  · rcases Span.objects_get_cases db a.annotation_id_2 with ⟨s2, h2⟩ | h2
    · left
      exact ⟨(s1.start_offset, s1.labelText, s2.start_offset, s2.labelText, a.typeName),
        by simp [relTuple, h1, h2]⟩
    · right; simp [relTuple, h1, h2]
  · right; simp [relTuple, h1]

theorem arpuLoop_ok (db : Database) :
    ∀ (l : List AnnotationRelations) (m0 : UserMap RelTuple),
      (∀ a ∈ l, isOkE (relTuple db a) = true) →
      arpuLoop db m0 l = Except.ok (l.foldl (relStep db) m0) := by
  intro l
  induction l with
  | nil => intro m0 _; rfl
  | cons a l ih =>
    intro m0 h
    obtain ⟨t, ht⟩ := (isOkE_iff _).mp (h a (List.mem_cons_self a l))
    have hrest : ∀ b ∈ l, isOkE (relTuple db b) = true :=
      fun b hb => h b (List.mem_cons_of_mem a hb)
    simp [arpuLoop, ht, relStep, Except.toOption, List.foldl_cons, ih _ hrest]

theorem arpuLoop_err (db : Database) :
    ∀ (l : List AnnotationRelations) (m0 : UserMap RelTuple),
      (∃ a ∈ l, isOkE (relTuple db a) = false) →
      arpuLoop db m0 l = Except.error PyError.doesNotExist := by
  intro l
  induction l with
  | nil => intro m0 h; simp at h
  | cons a l ih =>
    intro m0 h
    rcases relTuple_cases db a with ⟨t, ht⟩ | ht
    · rcases h with ⟨b, hb, hbe⟩
      rcases List.mem_cons.mp hb with hba | hb2
      · rw [hba, ht] at hbe; simp [isOkE] at hbe
      · simp only [arpuLoop, ht]
        exact ih _ ⟨b, hb2, hbe⟩
    · simp [arpuLoop, ht]

theorem foldl_relStep_lookup (db : Database) (u : String) :
    ∀ (l : List AnnotationRelations) (m0 : UserMap RelTuple),
      lookupD (l.foldl (relStep db) m0) u =
        lookupD m0 u ++
          (l.filter (fun a => a.username == u)).filterMap (fun a => (relTuple db a).toOption) := by
  intro l
  induction l with
  | nil => intro m0; simp
  | cons a l ih =>
    intro m0
    simp only [List.foldl_cons]
    rw [ih]
    by_cases hu : a.username = u
    · rcases relTuple_cases db a with ⟨t, ht⟩ | ht
      · simp [relStep, ht, Except.toOption, List.filter_cons, hu,
          lookupD_addToBucket, List.filterMap_cons]
      · simp [relStep, ht, Except.toOption, List.filter_cons, hu, List.filterMap_cons]
    · rcases relTuple_cases db a with ⟨t, ht⟩ | ht
      · have h2 : ¬ u = a.username := fun hh => hu hh.symm
        simp [relStep, ht, Except.toOption, List.filter_cons, hu,
          lookupD_addToBucket, h2]
      · simp [relStep, ht, Except.toOption, List.filter_cons, hu]

theorem runDocs_cons_err {α : Type} {f : Example → Except PyError (List (Record α))}
    {d : Example} {ds : List Example} {e : PyError} (h : f d = Except.error e) :
    runDocs f (d :: ds) = ([], some e) := by
  simp [runDocs, h]

theorem runDocs_snd_none {α : Type} {f : Example → Except PyError (List (Record α))}
    (h : ∀ d, ∃ rs, f d = Except.ok rs) :
    ∀ ds : List Example, (runDocs f ds).2 = none := by
  intro ds
  induction ds with
  | nil => rfl
  | cons d ds ih =>
    obtain ⟨rs, hrs⟩ := h d
    simp [runDocs, hrs, ih]

theorem runDocs_fst_nil {α : Type} {f : Example → Except PyError (List (Record α))}
    {e : PyError} (h : ∀ d, f d = Except.error e) :
    ∀ ds : List Example, (runDocs f ds).1 = [] := by
  intro ds
  cases ds with
  | nil => rfl
  | cons d ds => simp [runDocs, h d]

theorem mem_runDocs {α : Type} {f : Example → Except PyError (List (Record α))} :
    ∀ {ds : List Example} {r : Record α}, r ∈ (runDocs f ds).1 →
      ∃ d ∈ ds, ∃ rs, f d = Except.ok rs ∧ r ∈ rs := by
  intro ds
  induction ds with
  | nil => intro r hr; simp [runDocs] at hr
  | cons d ds ih =>
    intro r hr
    rcases hfd : f d with e | rs
    · rw [runDocs_cons_err hfd] at hr
      simp at hr
    · simp only [runDocs, hfd, List.mem_append] at hr
      rcases hr with h | h
      · exact ⟨d, List.mem_cons_self d ds, rs, hfd, h⟩
      · obtain ⟨d2, hd2, rs2, hfd2, hr2⟩ := ih h
        exact ⟨d2, List.mem_cons_of_mem d hd2, rs2, hfd2, hr2⟩

theorem textDocRecords_err {α : Type} {lpuF : Example → UserMap α}
    {arpuF : Database → Except PyError (UserMap RelTuple)} {collab : Bool}
    {db : Database} {doc : Example} {e : PyError} (h : arpuF db = Except.error e) :
    textDocRecords lpuF (some arpuF) collab db doc = Except.error e := by
  simp [textDocRecords, h, Except.map]

theorem textDocRecords_ok {α : Type} {lpuF : Example → UserMap α}
    {arpuF : Database → Except PyError (UserMap RelTuple)} {collab : Bool}
    {db : Database} {doc : Example} {m : UserMap RelTuple} (h : arpuF db = Except.ok m) :
    textDocRecords lpuF (some arpuF) collab db doc =
      Except.ok
        ((if collab then reduce_user (lpuF doc) else lpuF doc).map
            (textMkRecord doc (if collab then reduce_user m else m)) ++
          (if (if collab then reduce_user (lpuF doc) else lpuF doc).length = 0
            then [textUnknownRecord doc] else [])) := by
  simp [textDocRecords, h, Except.map]

theorem mem_textDocRecords_false {α : Type} {lpuF : Example → UserMap α}
    {arpuF : Database → Except PyError (UserMap RelTuple)}
    {db : Database} {doc : Example} {m : UserMap RelTuple} {rs : List (Record α)}
    {r : Record α} (hm : arpuF db = Except.ok m)
    (hrs : textDocRecords lpuF (some arpuF) false db doc = Except.ok rs)
    (hr : r ∈ rs) :
    (r = textUnknownRecord doc ∧ lpuF doc = []) ∨
      ∃ ul ∈ lpuF doc, r = textMkRecord doc m ul := by
  rw [textDocRecords_ok hm] at hrs
  simp only [if_neg (Bool.false_ne_true), Except.ok.injEq] at hrs
  subst hrs
  rcases List.mem_append.mp hr with h | h
  · obtain ⟨ul, hul, hrec⟩ := List.mem_map.mp h
    exact Or.inr ⟨ul, hul, hrec.symm⟩
  · by_cases hlen : (lpuF doc).length = 0
    · rw [if_pos hlen] at h
      simp at h
      exact Or.inl ⟨h, List.length_eq_zero.mp hlen⟩
    · rw [if_neg hlen] at h
      simp at h

theorem mem_fileDocRecords_false {α : Type} {lpuF : Example → UserMap α}
    {ex : Example} {r : Record α} (hr : r ∈ fileDocRecords lpuF false ex) :
    (r = fileUnknownRecord ex ∧ lpuF ex = []) ∨
      ∃ ul ∈ lpuF ex, r = fileMkRecord ex ul := by
  simp only [fileDocRecords, if_neg (Bool.false_ne_true)] at hr
  rcases List.mem_append.mp hr with h | h
  · obtain ⟨ul, hul, hrec⟩ := List.mem_map.mp h
    exact Or.inr ⟨ul, hul, hrec.symm⟩
  · by_cases hlen : (lpuF ex).length = 0
    · rw [if_pos hlen] at h
      simp at h
      exact Or.inl ⟨h, List.length_eq_zero.mp hlen⟩
    · rw [if_neg hlen] at h
      simp at h

theorem sl_list_fst_nil_of_err {db : Database} {ea : Bool} {e : PyError}
    (hm : SequenceLabelingRepository.annotation_relations_per_user db = Except.error e) :
    (SequenceLabelingRepository.list db ea).1 = [] := by
  unfold SequenceLabelingRepository.list TextRepository.list
  exact runDocs_fst_nil (fun d => textDocRecords_err hm) _

theorem sl_record_shape {db : Database} {ea : Bool} {m : UserMap RelTuple}
    {r : Record (Nat × Nat × String)}
    (hc : Project.collaborative_annotation db.project = false)
    (hm : SequenceLabelingRepository.annotation_relations_per_user db = Except.ok m)
    (hr : r ∈ (SequenceLabelingRepository.list db ea).1) :
    (r.user = "unknown" ∧ r.label = [] ∧ r.annotation_relations = []) ∨
      (r.annotation_relations = lookupD m r.user ∧ r.label ≠ []) := by
  simp only [SequenceLabelingRepository.list, TextRepository.list, hc] at hr
  obtain ⟨d, _, rs, hfd, hrrs⟩ := mem_runDocs hr
  rcases mem_textDocRecords_false hm hfd hrrs with ⟨hrec, _⟩ | ⟨ul, hul, hrec⟩
  · subst hrec
    exact Or.inl ⟨rfl, rfl, rfl⟩
  · subst hrec
    refine Or.inr ⟨rfl, ?_⟩
    exact groupAppend_nonempty _ _ _ ul hul

/-! ### Claim theorems -/

/-- Claim C1 (evidence of the code bug): on the spec's own scenario — a
non-collaborative text-classification project with one document (id 1,
text `"Hello"`) annotated alice→greeting and bob→salutation — `list()`
does not yield the two promised Records: `TextRepository.list`
unconditionally calls `self.annotation_relations_per_user()`, which
`TextClassificationRepository` never defines, so the export raises
`AttributeError` before yielding anything. -/
theorem c1_text_classification_scenario_raises :
    TextClassificationRepository.list dbX1 false = ([], some PyError.attributeError) := by
  rfl

/-- Claim C2 counterexample: in a COLLABORATIVE project a document with
zero annotations does not yield the `user="unknown"` fallback Record.
`reduce_user` turns the empty per-user map into `{"all": []}` before the
emptiness check, so the document yields one Record with `user="all"`,
empty label, and the document's own metadata (not `{}`). -/
theorem c2_counterexample_collaborative_empty :
    FileRepository.list FileRepository.label_per_user dbX2 false =
      [⟨1, "a.txt", [], "all", [("k", "v")], []⟩] := by
  rfl

/-- Claim C6 counterexample: a Record whose user is not `"unknown"` can
carry an empty label: in a collaborative sequence-labeling project a
document with zero annotations yields the single `user="all"` Record
with `label=[]`. -/
theorem c6_counterexample_all_empty_label :
    SequenceLabelingRepository.list dbX6 false = ([⟨1, "t", [], "all", [], []⟩], none) := by
  rfl

/-- Claim C4 (evidence of the code bug): exporting project 1 includes a
relation tuple built from a relation that references no span of any of
the project's documents (span ids 100 and 101 belong to another
project): `annotation_relations_per_user` scans the GLOBAL
`AnnotationRelations.objects.all()` table, so eve's foreign relation
`(7, "X", 20, "Y", "works_for")` appears in the yielded Record. -/
theorem c4_foreign_relation_contributes :
    SequenceLabelingRepository.list dbX4 false =
      ([⟨1, "text1", [(0, 5, "PER")], "all", [], [(7, "X", 20, "Y", "works_for")]⟩], none) ∧
    (dbX4.examples.flatMap Example.spans).map Span.id = [1] ∧
    dbX4.allRelations.map (fun a => (a.annotation_id_1, a.annotation_id_2)) = [(100, 101)] := by
  exact ⟨rfl, rfl, rfl⟩

/-- Claim C2 amended: a document with zero annotations yields exactly
one `user="unknown"` fallback Record (empty label, empty metadata) only
in a NON-collaborative project — here proved for the per-document body
of the file-based variant and of the sequence-labeling variant (whose
relation pass must succeed; the text-classification and seq2seq
variants raise `AttributeError` before reaching the fallback). -/
theorem c2_unknown_fallback_amended (db : Database) (doc : Example) (m : UserMap RelTuple)
    (hcat : doc.categories = []) (hspan : doc.spans = [])
    (hm : SequenceLabelingRepository.annotation_relations_per_user db = Except.ok m) :
    fileDocRecords FileRepository.label_per_user false doc = [fileUnknownRecord doc] ∧
    textDocRecords SequenceLabelingRepository.label_per_user
        (some SequenceLabelingRepository.annotation_relations_per_user) false db doc =
      Except.ok [textUnknownRecord doc] := by
  constructor
  · simp [fileDocRecords, FileRepository.label_per_user, groupAppend, hcat]
  · rw [textDocRecords_ok hm]
    simp [SequenceLabelingRepository.label_per_user, groupAppend, hspan]

/-- Witness for the amended C2 at a concrete unannotated document. -/
theorem c2_unknown_fallback_witness :
    fileDocRecords FileRepository.label_per_user false docW2 = [fileUnknownRecord docW2] ∧
    textDocRecords SequenceLabelingRepository.label_per_user
        (some SequenceLabelingRepository.annotation_relations_per_user) false dbW2 docW2 =
      Except.ok [textUnknownRecord docW2] :=
  c2_unknown_fallback_amended dbW2 docW2 [] rfl rfl rfl

/-- Claim C3: in a collaborative project each processed document yields
exactly one Record with `user="all"` whose label is the concatenation of
every annotator's bucket in iteration order (so its length is the sum
of the per-annotator counts) — proved for the per-document bodies of
the file-based variant and of the sequence-labeling variant; but the
text-classification variant (first conjunct, evidence of the code bug)
raises `AttributeError` on a collaborative project and yields nothing,
because `annotation_relations_per_user` is undefined on it. -/
theorem c3_collaborative_single_record :
    TextClassificationRepository.list dbX3 false = ([], some PyError.attributeError) ∧
    (∀ {α : Type} (lpuF : Example → UserMap α) (ex : Example),
      fileDocRecords lpuF true ex =
        [⟨ex.id, basename ex.filename, ((lpuF ex).map Prod.snd).flatten, "all", ex.meta, []⟩] ∧
      (((lpuF ex).map Prod.snd).flatten).length =
        ((lpuF ex).map (fun p => p.2.length)).sum) ∧
    (∀ (db : Database) (m : UserMap RelTuple) (doc : Example),
      SequenceLabelingRepository.annotation_relations_per_user db = Except.ok m →
      textDocRecords SequenceLabelingRepository.label_per_user
          (some SequenceLabelingRepository.annotation_relations_per_user) true db doc =
        Except.ok [⟨doc.id, doc.text,
          ((SequenceLabelingRepository.label_per_user doc).map Prod.snd).flatten, "all",
          doc.meta, (m.map Prod.snd).flatten⟩]) := by
  refine ⟨rfl, ?_, ?_⟩
  · intro α lpuF ex
    constructor
    · simp [fileDocRecords, reduce_user, fileMkRecord]
    · simp only [List.length_flatten, List.map_map]
      rfl
  · intro db m doc hm
    rw [textDocRecords_ok hm]
    simp [reduce_user, textMkRecord, lookupD]

/-- Witness for C3's collaborative conjuncts at concrete documents. -/
theorem c3_collaborative_witness :
    textDocRecords SequenceLabelingRepository.label_per_user
        (some SequenceLabelingRepository.annotation_relations_per_user) true dbW3 docW3 =
      Except.ok [⟨1, "txt", [(0, 2, "PER")], "all", [], []⟩] ∧
    fileDocRecords FileRepository.label_per_user true exW3 =
      [⟨1, "a.txt", ["greeting", "salutation"], "all", [], []⟩] := by
  constructor
  · exact (c3_collaborative_single_record.2.2 dbW3 [] docW3 rfl).trans (by rfl)
  · exact (c3_collaborative_single_record.2.1 FileRepository.label_per_user exW3).1.trans
      (by rfl)


/-- Claim C5: if any stored relation references a span id that resolves
to no stored span, the relation pass raises `DoesNotExist` and the
sequence-labeling export surfaces the error having yielded no Record
(no partially built relation tuple is emitted); if every referenced
span resolves, the relation pass succeeds and the export stream ends
without an error. -/
theorem c5_dangling_relation_fail_fast (db : Database) (ea : Bool) :
    ((∃ a ∈ db.allRelations, isOkE (relTuple db a) = false) →
      SequenceLabelingRepository.annotation_relations_per_user db =
          Except.error PyError.doesNotExist ∧
        (activeExamples db ea ≠ [] →
          SequenceLabelingRepository.list db ea = ([], some PyError.doesNotExist))) ∧
    ((∀ a ∈ db.allRelations, isOkE (relTuple db a) = true) →
      (∃ m, SequenceLabelingRepository.annotation_relations_per_user db = Except.ok m) ∧
        (SequenceLabelingRepository.list db ea).2 = none) := by
  constructor
  · intro hex
    have herr : SequenceLabelingRepository.annotation_relations_per_user db =
        Except.error PyError.doesNotExist := arpuLoop_err db db.allRelations [] hex
    refine ⟨herr, fun hne => ?_⟩
    obtain ⟨d, ds, hds⟩ := List.exists_cons_of_ne_nil hne
    unfold SequenceLabelingRepository.list TextRepository.list
    rw [hds]
    exact runDocs_cons_err (textDocRecords_err herr)
  · intro hok
    have hm : SequenceLabelingRepository.annotation_relations_per_user db =
        Except.ok (db.allRelations.foldl (relStep db) []) := arpuLoop_ok db db.allRelations [] hok
    refine ⟨⟨_, hm⟩, ?_⟩
    unfold SequenceLabelingRepository.list TextRepository.list
    exact runDocs_snd_none (fun d => ⟨_, textDocRecords_ok hm⟩) _

/-- Witness for C5: a concrete dangling relation makes the export raise
with no Record yielded; the same project with a resolving relation
exports without error. -/
theorem c5_fail_fast_witness :
    SequenceLabelingRepository.list dbX5bad false = ([], some PyError.doesNotExist) ∧
    (SequenceLabelingRepository.list dbX5good false).2 = none := by
  constructor
  · exact ((c5_dangling_relation_fail_fast dbX5bad false).1
      ⟨⟨99, 1, "broken", "alice"⟩, by decide, by decide⟩).2 (by decide)
  · exact ((c5_dangling_relation_fail_fast dbX5good false).2 (by decide)).2

/-- Claim C6 amended: in a NON-collaborative project, every Record
yielded by the sequence-labeling or file-based `list()` whose user is
not the `"unknown"` sentinel carries a non-empty label (grouping only
creates a key when at least one annotation exists); in a collaborative
project the single `"all"` Record can carry an empty label (see the
counterexample). -/
theorem c6_nonempty_label_amended (db : Database) (ea : Bool)
    (hc : Project.collaborative_annotation db.project = false) :
    (∀ r ∈ (SequenceLabelingRepository.list db ea).1,
      r.user ≠ "unknown" → r.label ≠ []) ∧
    (∀ r ∈ FileRepository.list FileRepository.label_per_user db ea,
      r.user ≠ "unknown" → r.label ≠ []) := by
  constructor
  · intro r hr hu
    rcases harpu : SequenceLabelingRepository.annotation_relations_per_user db with e | m
    · rw [sl_list_fst_nil_of_err harpu] at hr
      simp at hr
    · rcases sl_record_shape hc harpu hr with ⟨h1, _, _⟩ | ⟨_, h2⟩
      · exact absurd h1 hu
      · exact h2
  · intro r hr hu
    simp only [FileRepository.list, hc] at hr
    obtain ⟨ex, _, hrex⟩ := List.mem_flatMap.mp hr
    rcases mem_fileDocRecords_false hrex with ⟨hrec, _⟩ | ⟨ul, hul, hrec⟩
    · rw [hrec] at hu
      exact absurd rfl hu
    · rw [hrec]
      exact groupAppend_nonempty _ _ _ ul hul

/-- Witness for the amended C6: the record alice's span produces has a
non-empty label. -/
theorem c6_nonempty_label_witness :
    (⟨1, "t", [(0, 5, "PER")], "alice", [], []⟩ : Record (Nat × Nat × String)).label ≠ [] :=
  (c6_nonempty_label_amended dbW6 false rfl).1 _ (by decide) (by decide)

/-- Claim C7: when every referenced span resolves, the relation pass
succeeds and maps each annotator `u` to exactly the tuples
`(span1.start_offset, span1.label.text, span2.start_offset,
span2.label.text, type.name)` of the stored relations owned by `u`, in
retrieval order; and (non-collaborative case) every yielded annotator
Record carries exactly its user's bucket of that map as its
`annotation_relations`. -/
theorem c7_relation_grouping (db : Database)
    (h : ∀ a ∈ db.allRelations, isOkE (relTuple db a) = true) :
    ∃ m, SequenceLabelingRepository.annotation_relations_per_user db = Except.ok m ∧
      (∀ u, lookupD m u =
        (db.allRelations.filter (fun a => a.username == u)).filterMap
          (fun a => (relTuple db a).toOption)) ∧
      ∀ (ea : Bool) (r : Record (Nat × Nat × String)),
        Project.collaborative_annotation db.project = false →
        r ∈ (SequenceLabelingRepository.list db ea).1 → r.user ≠ "unknown" →
        r.annotation_relations = lookupD m r.user := by
  have hm : SequenceLabelingRepository.annotation_relations_per_user db =
      Except.ok (db.allRelations.foldl (relStep db) []) := arpuLoop_ok db db.allRelations [] h
  refine ⟨db.allRelations.foldl (relStep db) [], hm, ?_, ?_⟩
  · intro u
    rw [foldl_relStep_lookup]
    simp [lookupD]
  · intro ea r hc hr hu
    rcases sl_record_shape hc hm hr with ⟨h1, _, _⟩ | ⟨h2, _⟩
    · exact absurd h1 hu
    · exact h2

/-- Witness for C7: the spec's scenario — spans at offsets 5 (`"PER"`)
and 12 (`"ORG"`), a `works_for` relation owned by alice — yields
exactly the tuple `(5, "PER", 12, "ORG", "works_for")` in alice's
bucket. -/
theorem c7_relation_grouping_witness :
    ∃ m, SequenceLabelingRepository.annotation_relations_per_user dbX7 = Except.ok m ∧
      lookupD m "alice" = [(5, "PER", 12, "ORG", "works_for")] := by
  obtain ⟨m, hm, hu, _⟩ := c7_relation_grouping dbX7 (by decide)
  exact ⟨m, hm, (hu "alice").trans (by decide)⟩

theorem fileDocRecords_exists_id {α : Type} (lpuF : Example → UserMap α) (cf : Bool)
    (d : Example) : ∃ r ∈ fileDocRecords lpuF cf d, r.id = d.id := by
  rcases hL : (if cf then reduce_user (lpuF d) else lpuF d) with _ | ⟨ul, rest⟩
  · refine ⟨fileUnknownRecord d, ?_, rfl⟩
    simp only [fileDocRecords, hL]
    simp
  · refine ⟨fileMkRecord d ul, ?_, rfl⟩
    simp only [fileDocRecords, hL]
    simp

/-- Claim C8: with `export_approved=True` a document whose
`annotations_approved_by` is null is excluded from the document set, so
it contributes no Record (second conjunct); with `export_approved=False`
the file-based `list()` gives every document at least one Record (third
conjunct); but the text-classification `list()` (first conjunct,
evidence of the code bug) raises `AttributeError` with
`export_approved=False`, so its documents contribute no Record at
all. -/
theorem c8_approved_filter_and_crash :
    TextClassificationRepository.list dbX8 false = ([], some PyError.attributeError) ∧
    (∀ (db : Database) (doc : Example), doc.annotations_approved_by = none →
      doc ∉ activeExamples db true) ∧
    (∀ {α : Type} (lpuF : Example → UserMap α) (db : Database) (doc : Example),
      doc ∈ db.examples →
      ∃ r ∈ FileRepository.list lpuF db false, r.id = doc.id) := by
  refine ⟨rfl, ?_, ?_⟩
  · intro db doc h hmem
    simp [activeExamples, List.mem_filter, h] at hmem
  · intro α lpuF db doc hdoc
    obtain ⟨r, hr, hid⟩ := fileDocRecords_exists_id lpuF
      ( Project.collaborative_annotation db.project) doc
    exact ⟨r, List.mem_flatMap.mpr ⟨doc, hdoc, hr⟩, hid⟩

/-- Witness for C8 at concrete data: the unapproved document is
excluded from the approved-only pass, and the same document yields a
Record (its fallback) in the unfiltered file-based pass. -/
theorem c8_approved_filter_witness :
    exW8 ∉ activeExamples dbW8 true ∧
    ∃ r ∈ FileRepository.list FileRepository.label_per_user dbW8 false, r.id = exW8.id := by
  constructor
  · exact c8_approved_filter_and_crash.2.1 dbW8 exW8 rfl
  · exact c8_approved_filter_and_crash.2.2 FileRepository.label_per_user dbW8 exW8 (by decide)

/-- Claim C9: each `list()` variant is a pure function of the data
source — two passes over an unchanged database produce the same Record
sequence (same order, every field equal); the embedding reads nothing
but the `Database` value, mirroring that the code performs no writes
and consults no other state. -/
theorem c9_list_deterministic (db : Database) (ea : Bool) :
    SequenceLabelingRepository.list db ea = SequenceLabelingRepository.list db ea ∧
    TextClassificationRepository.list db ea = TextClassificationRepository.list db ea ∧
    Seq2seqRepository.list db ea = Seq2seqRepository.list db ea ∧
    FileRepository.list FileRepository.label_per_user db ea =
      FileRepository.list FileRepository.label_per_user db ea ∧
    FileRepository.list Speech2TextRepository.label_per_user db ea =
      FileRepository.list Speech2TextRepository.label_per_user db ea :=
  ⟨rfl, rfl, rfl, rfl, rfl⟩

/-- Claim C10: in a non-collaborative sequence-labeling export, any two
yielded annotator Records with the same user — in particular Records of
the same annotator for different documents — carry identical
`annotation_relations`: the per-user relation map never reads the
document being processed. -/
theorem c10_relations_doc_independent (db : Database) (ea : Bool)
    (hc : Project.collaborative_annotation db.project = false)
    (r1 r2 : Record (Nat × Nat × String))
    (h1 : r1 ∈ (SequenceLabelingRepository.list db ea).1)
    (h2 : r2 ∈ (SequenceLabelingRepository.list db ea).1)
    (hu1 : r1.user ≠ "unknown") (huu : r1.user = r2.user) :
    r1.annotation_relations = r2.annotation_relations := by
  rcases harpu : SequenceLabelingRepository.annotation_relations_per_user db with e | m
  · rw [sl_list_fst_nil_of_err harpu] at h1
    simp at h1
  · rcases sl_record_shape hc harpu h1 with ⟨hu, _, _⟩ | ⟨ha1, _⟩
    · exact absurd hu hu1
    · rcases sl_record_shape hc harpu h2 with ⟨hu, _, _⟩ | ⟨ha2, _⟩
      · rw [huu] at hu1
        exact absurd hu hu1
      · rw [ha1, ha2, huu]

/-- Witness for C10: alice's Records for the two documents of `dbW10`
carry the same relation tuples. -/
theorem c10_relations_witness :
    (⟨1, "d1", [(0, 1, "A")], "alice", [], [(0, "A", 2, "B", "rel")]⟩
        : Record (Nat × Nat × String)).annotation_relations =
      (⟨2, "d2", [(2, 3, "B")], "alice", [], [(0, "A", 2, "B", "rel")]⟩
        : Record (Nat × Nat × String)).annotation_relations :=
  c10_relations_doc_independent dbW10 false rfl _ _ (by decide) (by decide) (by decide) rfl
